import Mathlib

/-!
Shallow embedding of the ML price-prediction service
(`src/services/ml-service/app.py`) and proofs about its feature
extraction, distance lookup, prediction pipeline and train/retrain
control flow.

Conventions of the embedding:
* Python floats are modelled as rationals (`ℚ`); all the arithmetic the
  service performs on prices is exact decimal arithmetic, so `ℚ` is a
  faithful carrier.
* `datetime.now()` is modelled by an explicit `Now` value (a civil date
  plus the number of seconds since midnight); the code under
  verification never mutates the clock, so a single `Now` value stands
  for the (essentially constant) wall clock during one request.
* The raw regression model is opaque to every claim considered here, so
  raw model output is an arbitrary rational (`raw : ℚ`) for a single
  prediction and an arbitrary function `Features → ℚ` for the batch
  path.
* The `train_model` / `retrain` control flow is modelled as a state
  machine over the in-memory model reference and the persisted artifact
  file; the synthetic-data fitting step is abstracted to the
  distinguished value `MLModel.freshFitted` (what the claims observe is
  only *whether* a fresh fit happened and what gets assigned where, not
  the numeric content of the fitted forest).
-/

namespace MLService

/-- A civil (proleptic Gregorian) calendar date, as produced by
`datetime.strptime(s, "%Y-%m-%d")`. -/
structure Date where
  year : ℤ
  month : ℕ
  day : ℕ
deriving DecidableEq, Repr

/-- Gregorian leap-year rule (as used by Python's `datetime`). -/
def isLeap (y : ℤ) : Bool :=
  y % 4 = 0 && (y % 100 ≠ 0 || y % 400 = 0)

/-- Number of days in a month, used to validate the day field exactly as
`strptime` does. -/
def daysInMonth (y : ℤ) (m : ℕ) : ℕ :=
  if m = 2 then (if isLeap y then 29 else 28)
  else if m ∈ [4, 6, 9, 11] then 30
  else 31

/-- Days since the Unix epoch (1970-01-01) of a civil date; the standard
days-from-civil algorithm.  Mirrors the ordinal arithmetic underlying
Python `datetime` subtraction. -/
def daysFromCivil (d : Date) : ℤ :=
  let y : ℤ := if d.month ≤ 2 then d.year - 1 else d.year
  let era : ℤ := Int.fdiv y 400
  let yoe : ℤ := y - era * 400
  let mp : ℤ := ((d.month : ℤ) + 9) % 12
  let doy : ℤ := (153 * mp + 2) / 5 + (d.day : ℤ) - 1
  let doe : ℤ := yoe * 365 + yoe / 4 - yoe / 100 + doy
  era * 146097 + doe - 719468

/-- `Date.weekday` as in Python: Monday = 0 … Sunday = 6
(1970-01-01 was a Thursday, weekday 3). -/
def weekday (d : Date) : ℕ :=
  ((daysFromCivil d + 3) % 7).toNat

/-- Split a character list on `'-'` (the separators of `%Y-%m-%d`). -/
def splitOnDash : List Char → List (List Char)
  | [] => [[]]
  | c :: rest =>
    let r := splitOnDash rest
    if c = '-' then [] :: r
    else
      match r with
      | [] => [[c]]
      | g :: gs => (c :: g) :: gs

/-- Value of an ASCII digit character. -/
def digitVal (c : Char) : ℕ :=
  c.toNat - 48

/-- The `%Y` group of `strptime`'s compiled pattern: exactly four
digits.  The `datetime` constructor additionally demands year ≥ 1;
that check is applied in `parseDate`. -/
def yearOk (cs : List Char) : Option ℕ :=
  match cs with
  | [a, b, c, d] =>
    if a.isDigit ∧ b.isDigit ∧ c.isDigit ∧ d.isDigit then
      some (((digitVal a * 10 + digitVal b) * 10 + digitVal c) * 10 +
        digitVal d)
    else none
  | _ => none

/-- The `%m` group of `strptime`'s compiled pattern,
`1[0-2]|0[1-9]|[1-9]`: one or two characters, value 1..12. -/
def monthOk (cs : List Char) : Option ℕ :=
  match cs with
  | [a, b] =>
    if a = '1' ∧ '0' ≤ b ∧ b ≤ '2' then some (10 + digitVal b)
    else if a = '0' ∧ '1' ≤ b ∧ b ≤ '9' then some (digitVal b)
    else none
  | [a] => if '1' ≤ a ∧ a ≤ '9' then some (digitVal a) else none
  | _ => none

/-- The `%d` group of `strptime`'s compiled pattern,
`3[01]|[12]\d|0[1-9]|[1-9]`: one or two characters, value 1..31.  The
`datetime` constructor further demands the day fit the month; that
check is applied in `parseDate`. -/
def dayOk (cs : List Char) : Option ℕ :=
  match cs with
  | [a, b] =>
    if a = '3' ∧ (b = '0' ∨ b = '1') then some (30 + digitVal b)
    else if (a = '1' ∨ a = '2') ∧ b.isDigit then
      some (digitVal a * 10 + digitVal b)
    else if a = '0' ∧ '1' ≤ b ∧ b ≤ '9' then some (digitVal b)
    else none
  | [a] => if '1' ≤ a ∧ a ≤ '9' then some (digitVal a) else none
  | _ => none

/-- Model of `datetime.strptime(s, "%Y-%m-%d")` followed by the
`datetime` constructor's range checks, exact for ASCII input: the whole
string must be consumed as year, dash, month, dash, day, with the three
groups matching `strptime`'s compiled patterns (`yearOk`, `monthOk`,
`dayOk`), the year at least 1 and the day valid for the month; any
other ASCII input raises inside the `try`, i.e. yields `none`.  (On
non-ASCII input CPython's `\d` also matches other Unicode decimal
digits; theorems about parse *failures* therefore restrict to ASCII
strings, where this model is exact.) -/
def parseDate (s : String) : Option Date :=
  match splitOnDash s.toList with
  | [ys, ms, ds] =>
    match yearOk ys, monthOk ms, dayOk ds with
    | some y, some m, some d =>
      if 1 ≤ y ∧ d ≤ daysInMonth (y : ℤ) m then some ⟨(y : ℤ), m, d⟩
      else none
    | _, _, _ => none
  | _ => none

/-- Strings made of ASCII characters only: the fragment on which
`parseDate` coincides with the service's date parsing. -/
def asciiOnly (s : String) : Prop :=
  ∀ c ∈ s.data, c.toNat < 128

instance (s : String) : Decidable (asciiOnly s) := by
  unfold asciiOnly
  infer_instance

/-- Zero-pad a numeral to two digits (`%m`, `%d`). -/
def pad2 (n : ℕ) : String :=
  if n < 10 then "0" ++ toString n else toString n

/-- Zero-pad a numeral to four digits (`%Y`). -/
def pad4 (n : ℕ) : String :=
  if n < 10 then "000" ++ toString n
  else if n < 100 then "00" ++ toString n
  else if n < 1000 then "0" ++ toString n
  else toString n

/-- Model of `datetime.now().strftime("%Y-%m-%d")` applied to a date. -/
def formatDate (d : Date) : String :=
  pad4 d.year.toNat ++ "-" ++ pad2 d.month ++ "-" ++ pad2 d.day

/-- The wall clock at the moment a request is handled: the current civil
date and the number of seconds already elapsed since midnight
(`datetime.now()` carries a time of day; `sec` records it). -/
structure Now where
  date : Date
  sec : ℕ
deriving DecidableEq, Repr

/-- The module-level `AIRPORT_DISTANCES` dict: ordered airport-code
pairs mapped to approximate distances in km. -/
def AIRPORT_DISTANCES : List ((String × String) × ℚ) :=
  [(("IST", "SAW"), 50),
   (("IST", "ESB"), 350),
   (("IST", "ADB"), 330),
   (("IST", "AYT"), 480),
   (("IST", "BJV"), 520),
   (("IST", "DLM"), 600),
   (("IST", "TZX"), 880),
   (("IST", "GZT"), 850),
   (("IST", "VAN"), 1200),
   (("IST", "JFK"), 8000),
   (("IST", "LAX"), 11000),
   (("IST", "LHR"), 2500),
   (("IST", "CDG"), 2200),
   (("IST", "FRA"), 1800),
   (("IST", "AMS"), 2200),
   (("IST", "DXB"), 3000),
   (("ADB", "SAW"), 290),
   (("ADB", "ESB"), 450),
   (("ESB", "AYT"), 350),
   (("AYT", "SAW"), 400)]

/-- Dict membership plus indexing: `AIRPORT_DISTANCES[key]` when the key
is present, `none` otherwise. -/
def lookupDist (k : String × String) : Option ℚ :=
  (AIRPORT_DISTANCES.find? (fun e => e.1 == k)).map (fun e => e.2)

/-- `get_distance`: try the pair as given, then reversed, else the
500 km default. -/
def get_distance (from_airport to_airport : String) : ℚ :=
  match lookupDist (from_airport, to_airport) with
  | some d => d
  | none =>
    match lookupDist (to_airport, from_airport) with
    | some d => d
    | none => 500

/-- A `/predict`-style JSON request body; every field the service reads
is optional (`dict.get`). -/
structure PredictRequest where
  fromAirport : Option String
  toAirport : Option String
  departureDate : Option String
  durationMinutes : Option ℚ
deriving DecidableEq, Repr

/-- The fixed 10-code set of domestic airports (it appears verbatim in
both `extract_features` and `predict`). -/
def domestic_airports : List String :=
  ["IST", "SAW", "ESB", "ADB", "AYT", "BJV", "DLM", "TZX", "GZT", "VAN"]

/-- The 9-field feature dict produced by `extract_features`, in its
insertion order. -/
structure Features where
  duration_minutes : ℚ
  month : ℕ
  day_of_week : ℕ
  day_of_month : ℕ
  days_until_departure : ℤ
  is_weekend : ℕ
  is_peak_season : ℕ
  distance : ℚ
  is_international : ℕ
deriving DecidableEq, Repr

/-- `extract_features(data)`.  Field defaults, the date-parse fallback
to `datetime.now()`, the `timedelta.days` floor division by 86400
seconds, the clamp of negative day counts to 0, the weekend/peak-season
flags, the distance lookup and the case-sensitive domestic test are all
taken directly from the source. -/
def extract_features (now : Now) (data : PredictRequest) : Features :=
  let from_airport := data.fromAirport.getD "IST"
  let to_airport := data.toAirport.getD "SAW"
  let departure_date := data.departureDate.getD (formatDate now.date)
  let date_obj : Date × ℕ :=
    match parseDate departure_date with
    | some d => (d, 0)
    | none => (now.date, now.sec)
  let days_until0 : ℤ :=
    Int.fdiv ((daysFromCivil date_obj.1 * 86400 + (date_obj.2 : ℤ)) -
      (daysFromCivil now.date * 86400 + (now.sec : ℤ))) 86400
  let days_until : ℤ := if days_until0 < 0 then 0 else days_until0
  let month := date_obj.1.month
  let day_of_week := weekday date_obj.1
  { duration_minutes := data.durationMinutes.getD 90
    month := month
    day_of_week := day_of_week
    day_of_month := date_obj.1.day
    days_until_departure := days_until
    is_weekend := if 5 ≤ day_of_week then 1 else 0
    is_peak_season := if month ∈ [6, 7, 8, 12] then 1 else 0
    distance := get_distance from_airport to_airport
    is_international :=
      if from_airport ∈ domestic_airports ∧ to_airport ∈ domestic_airports
      then 0 else 1 }

/-- Round half to even (Python's `round` on an exactly representable
value), to the nearest integer. -/
def round_half_even (q : ℚ) : ℤ :=
  let f := ⌊q⌋
  if q - f < 1 / 2 then f
  else if 1 / 2 < q - f then f + 1
  else if f % 2 = 0 then f else f + 1

/-- `round(x, 2)`: round to two decimal places. -/
def round2 (q : ℚ) : ℚ :=
  (round_half_even (q * 100) : ℚ) / 100

/-- `str.upper()` restricted to ASCII, which is all the service ever
feeds it (airport codes). -/
def strUpper (s : String) : String :=
  ⟨s.data.map Char.toUpper⟩

/-- The domestic test of the single-prediction path: the *raw* request
fields, defaulted to the empty string and uppercased, both in the
domestic set. -/
def is_domestic (data : PredictRequest) : Prop :=
  strUpper (data.fromAirport.getD "") ∈ domestic_airports ∧
    strUpper (data.toAirport.getD "") ∈ domestic_airports

instance (data : PredictRequest) : Decidable (is_domestic data) := by
  unfold is_domestic
  infer_instance

/-- The adjusted-price formula of the domestic override, with its three
conditional surcharges applied in source order. -/
def adjusted_price (features : Features) : ℚ :=
  let adjusted_base : ℚ := 40
  let p0 := adjusted_base + features.distance * 0.005 +
    features.duration_minutes * 0.1
  let p1 := if features.is_peak_season ≠ 0 then p0 + 20 else p0
  let p2 := if features.is_weekend ≠ 0 then p1 + 10 else p1
  if features.days_until_departure < 7 then
    p2 + ((7 - features.days_until_departure : ℤ) : ℚ) * 2
  else p2

/-- The price post-processing of the single `/predict` handler: the
domestic override (when the domestic test passes and the raw model
output exceeds 80) followed by the floor at 30 and rounding to two
decimals. -/
def predict_price (data : PredictRequest) (features : Features) (raw : ℚ) : ℚ :=
  round2 (max
    (if is_domestic data ∧ 80 < raw then
      min (min raw (max (adjusted_price features) 35)) 85
    else raw) 30)

/-- Full single-prediction price for a request, given the raw model
output on its extracted features. -/
def predict_single (now : Now) (data : PredictRequest) (raw : ℚ) : ℚ :=
  predict_price data (extract_features now data) raw

/-- One entry of the `/predict/batch` response: the three request fields
echoed via `flight.get(...)` (hence `none` when absent) plus the price. -/
structure BatchPrediction where
  fromAirport : Option String
  toAirport : Option String
  departureDate : Option String
  predictedPrice : ℚ
deriving DecidableEq, Repr

/-- The `/predict/batch` loop body, applied to each flight in order:
extract features, run the model, floor at 30, round to two decimals; no
domestic override. `rawModel` abstracts `model.predict`. -/
def predict_batch (now : Now) (rawModel : Features → ℚ)
    (flights : List PredictRequest) : List BatchPrediction :=
  flights.map (fun flight =>
    { fromAirport := flight.fromAirport
      toAirport := flight.toAirport
      departureDate := flight.departureDate
      predictedPrice :=
        round2 (max (rawModel (extract_features now flight)) 30) })

/-- The in-memory model reference.  `fromArtifact id` is a model
deserialized from a persisted artifact with content `id`;
`freshFitted` is the forest freshly fitted on the regenerated synthetic
data; `freshUnfitted` is a `RandomForestRegressor` that has been
constructed but whose `fit` raised. -/
inductive MLModel
  | fromArtifact (id : ℕ)
  | freshFitted
  | freshUnfitted
deriving DecidableEq, Repr

/-- Contents of the file at `model/flight_price_model.joblib`: either an
artifact that deserializes to a model, or bytes on which `joblib.load`
raises. -/
inductive Artifact
  | stores (m : MLModel)
  | corrupt
deriving DecidableEq, Repr

/-- Process state touched by `train_model`: the global `model` reference
and the persisted file (`none` = file absent). -/
structure MLState where
  model : Option MLModel
  file : Option Artifact
deriving DecidableEq, Repr

/-- Outcome of a `train_model` call: normal return, or an uncaught
exception propagating to the caller. -/
inductive TrainResult
  | ok
  | raised (msg : String)
deriving DecidableEq, Repr

/-- `train_model()`.  If the artifact file exists and loads, the global
model is set to the loaded artifact and the function returns — no
training.  A load failure is caught and logged (not reported), falling
through to training.  The training path first assigns the global model
a newly constructed regressor and then fits it; `fitRaises` abstracts
whether `model.fit` raises.  On a successful fit the model is persisted
over the artifact path. -/
def train_model (fitRaises : Bool) (s : MLState) : MLState × TrainResult :=
  match s.file with
  | some (Artifact.stores m) => ({ s with model := some m }, TrainResult.ok)
  | _ =>
    if fitRaises then
      ({ s with model := some MLModel.freshUnfitted },
        TrainResult.raised "fit raised")
    else
      ({ model := some MLModel.freshFitted,
         file := some (Artifact.stores MLModel.freshFitted) }, TrainResult.ok)

/-- The `/model/retrain` handler: call `train_model`, report success
unless it raised. -/
def retrain (fitRaises : Bool) (s : MLState) : MLState × Bool :=
  match train_model fitRaises s with
  | (s', TrainResult.ok) => (s', true)
  | (s', TrainResult.raised _) => (s', false)

/-- Feature-name order of the dict built by `extract_features`. -/
def feature_names_extract : List String :=
  ["duration_minutes", "month", "day_of_week", "day_of_month",
   "days_until_departure", "is_weekend", "is_peak_season",
   "distance", "is_international"]

/-- Column order of the training `DataFrame` in `train_model`. -/
def feature_names_train : List String :=
  ["duration_minutes", "month", "day_of_week", "day_of_month",
   "days_until_departure", "is_weekend", "is_peak_season",
   "distance", "is_international"]

/-- Key order of the feature-importance report in `model_info`. -/
def feature_names_info : List String :=
  ["duration_minutes", "month", "day_of_week", "day_of_month",
   "days_until_departure", "is_weekend", "is_peak_season",
   "distance", "is_international"]

/-! ### Helper lemmas -/

theorem round_half_even_ge (q : ℚ) : ⌊q⌋ ≤ round_half_even q := by
  simp only [round_half_even]
  split_ifs <;> omega

theorem le_round_half_even {n : ℤ} {q : ℚ} (h : (n : ℚ) ≤ q) :
    n ≤ round_half_even q :=
  le_trans (Int.le_floor.mpr h) (round_half_even_ge q)

theorem round_half_even_le {m : ℤ} {q : ℚ} (h : q ≤ (m : ℚ)) :
    round_half_even q ≤ m := by
  have hfm : ⌊q⌋ ≤ m := by
    calc ⌊q⌋ ≤ ⌊(m : ℚ)⌋ := Int.floor_le_floor h
    _ = m := Int.floor_intCast m
  have hfl : (⌊q⌋ : ℚ) ≤ q := Int.floor_le q
  simp only [round_half_even]
  split_ifs with h1 h2 h3
  · exact hfm
  · have hlt : (⌊q⌋ : ℚ) < (m : ℚ) := lt_of_lt_of_le (by linarith) h
    have : ⌊q⌋ < m := by exact_mod_cast hlt
    omega
  · exact hfm
  · have hhalf : 1 / 2 ≤ q - (⌊q⌋ : ℚ) := not_lt.mp h1
    have hlt : (⌊q⌋ : ℚ) < (m : ℚ) := lt_of_lt_of_le (by linarith) h
    have : ⌊q⌋ < m := by exact_mod_cast hlt
    omega

theorem le_round2 {n : ℤ} {q : ℚ} (h : (n : ℚ) ≤ q) : (n : ℚ) ≤ round2 q := by
  have h2 : n * 100 ≤ round_half_even (q * 100) := by
    apply le_round_half_even
    push_cast
    linarith
  unfold round2
  rw [le_div_iff₀ (by norm_num : (0 : ℚ) < 100)]
  exact_mod_cast h2

theorem round2_le {m : ℤ} {q : ℚ} (h : q ≤ (m : ℚ)) : round2 q ≤ (m : ℚ) := by
  have h2 : round_half_even (q * 100) ≤ m * 100 := by
    apply round_half_even_le
    push_cast
    linarith
  unfold round2
  rw [div_le_iff₀ (by norm_num : (0 : ℚ) < 100)]
  exact_mod_cast h2

theorem adjusted_price_eq (f : Features) :
    adjusted_price f =
      40 + f.distance * 0.005 + f.duration_minutes * 0.1 +
        (if f.is_peak_season ≠ 0 then 20 else 0) +
        (if f.is_weekend ≠ 0 then 10 else 0) +
        (if f.days_until_departure < 7 then
          ((7 - f.days_until_departure : ℤ) : ℚ) * 2 else 0) := by
  unfold adjusted_price
  split_ifs <;> ring

theorem strUpper_mem_fixed : ∀ s ∈ domestic_airports, strUpper s = s := by
  decide

theorem is_domestic_of_mem {data : PredictRequest} {f t : String}
    (hf : data.fromAirport = some f) (hfd : f ∈ domestic_airports)
    (ht : data.toAirport = some t) (htd : t ∈ domestic_airports) :
    is_domestic data := by
  unfold is_domestic
  rw [hf, ht]
  simp only [Option.getD_some]
  rw [strUpper_mem_fixed f hfd, strUpper_mem_fixed t htd]
  exact ⟨hfd, htd⟩

theorem reverse_not_mem_keys :
    ∀ k ∈ AIRPORT_DISTANCES.map Prod.fst,
      (k.2, k.1) ∉ AIRPORT_DISTANCES.map Prod.fst := by
  decide

theorem lookupDist_some_mem {k : String × String} {d : ℚ}
    (h : lookupDist k = some d) : k ∈ AIRPORT_DISTANCES.map Prod.fst := by
  unfold lookupDist at h
  rcases Option.map_eq_some'.mp h with ⟨e, he, _⟩
  have hm := List.mem_of_find?_eq_some he
  have hp := List.find?_some he
  have hk : e.1 = k := by simpa using hp
  rw [← hk]
  exact List.mem_map_of_mem Prod.fst hm

theorem fdiv_mul_sub_sec (D : ℤ) (s : ℕ) (h : s < 86400) :
    Int.fdiv (D * 86400 - (s : ℤ)) 86400 = if s = 0 then D else D - 1 := by
  rw [Int.fdiv_eq_ediv _ (by norm_num : (0 : ℤ) ≤ 86400)]
  rcases Nat.eq_zero_or_pos s with hs | hs
  · subst hs
    simp only [Nat.cast_zero, sub_zero, if_pos rfl]
    exact Int.mul_ediv_cancel D (by norm_num)
  · rw [if_neg (Nat.pos_iff_ne_zero.mp hs)]
    have harg : D * 86400 - (s : ℤ) = (86400 - (s : ℤ)) + (D - 1) * 86400 := by
      ring
    rw [harg, Int.add_mul_ediv_right _ _ (by norm_num : (86400 : ℤ) ≠ 0),
      Int.ediv_eq_zero_of_lt (by omega) (by omega)]
    ring

theorem ite_neg_clamp (z : ℤ) : (if z < 0 then 0 else z) = max z 0 := by
  rcases lt_or_le z 0 with h | h
  · rw [if_pos h, max_eq_right h.le]
  · rw [if_neg (not_lt.mpr h), max_eq_left h]

/-! ### Claim theorems -/

/-- C1: `POST /model/retrain` calls `train_model`, and `train_model`
first tries to load the persisted artifact.  Whenever the artifact file
exists and loads, retrain therefore reports success while merely
reloading the artifact into the in-memory reference: no synthetic data
is regenerated, nothing is refitted, and the persisted artifact is left
untouched — contradicting the claimed unconditional retrain (and the
handler's own "Model retrained successfully" message). -/
theorem retrain_with_artifact_reloads (fitRaises : Bool)
    (m : Option MLModel) (a : MLModel) :
    retrain fitRaises ⟨m, some (Artifact.stores a)⟩ =
      (⟨some a, some (Artifact.stores a)⟩, true) := by
  cases fitRaises <;> rfl

/-- C2 counterexample: starting from a process that has never loaded a
model (reference unset, no artifact), a failing fit does report the
failure, but the in-memory model reference is NOT left as it was:
`train_model` assigns the global a fresh `RandomForestRegressor` before
calling `fit`, so the reference ends up set (to an unfitted model)
rather than unset. -/
theorem train_model_fit_failure_mutates_reference :
    (train_model true ⟨none, none⟩).2 = TrainResult.raised "fit raised" ∧
    ¬ (train_model true ⟨none, none⟩).1.model = none := by
  exact ⟨rfl, by decide⟩

/-- C2 amended: when no loadable artifact exists, a fit failure
propagates to the caller but leaves the in-memory reference pointing at
the freshly constructed unfitted model (the artifact file is untouched);
a load failure alone is never reported — the service falls through to
training and, if the fit succeeds, the call succeeds, with the model and
the artifact both replaced by the freshly fitted one. -/
theorem train_model_failure_behavior (s : MLState)
    (h : s.file = none ∨ s.file = some Artifact.corrupt) :
    ((train_model true s).2 = TrainResult.raised "fit raised" ∧
     (train_model true s).1.model = some MLModel.freshUnfitted ∧
     (train_model true s).1.file = s.file) ∧
    ((train_model false s).2 = TrainResult.ok ∧
     (train_model false s).1.model = some MLModel.freshFitted ∧
     (train_model false s).1.file =
       some (Artifact.stores MLModel.freshFitted)) := by
  obtain ⟨mo, fi⟩ := s
  rcases h with h | h <;> simp_all [train_model]

theorem train_model_failure_behavior_witness :
    ((⟨none, some Artifact.corrupt⟩ : MLState).file = none ∨
      (⟨none, some Artifact.corrupt⟩ : MLState).file =
        some Artifact.corrupt) ∧
    (((train_model true ⟨none, some Artifact.corrupt⟩).2 =
        TrainResult.raised "fit raised" ∧
      (train_model true ⟨none, some Artifact.corrupt⟩).1.model =
        some MLModel.freshUnfitted ∧
      (train_model true ⟨none, some Artifact.corrupt⟩).1.file =
        (⟨none, some Artifact.corrupt⟩ : MLState).file) ∧
     ((train_model false ⟨none, some Artifact.corrupt⟩).2 =
        TrainResult.ok ∧
      (train_model false ⟨none, some Artifact.corrupt⟩).1.model =
        some MLModel.freshFitted ∧
      (train_model false ⟨none, some Artifact.corrupt⟩).1.file =
        some (Artifact.stores MLModel.freshFitted))) :=
  ⟨Or.inr rfl,
    train_model_failure_behavior ⟨none, some Artifact.corrupt⟩ (Or.inr rfl)⟩

/-- C3: in single prediction, when both airport fields are present and
in the domestic set and the raw model output exceeds 80, the returned
price is min(raw, max(adjusted, 35)) capped at 85 — with adjusted =
40 + distance·0.005 + duration·0.1 + 20·peak + 10·weekend +
(7 − days_until)·2 when days_until < 7 — and then rounded to two
decimals (the floor at 30 is inert on this branch). -/
theorem domestic_override_formula (now : Now) (data : PredictRequest)
    (raw : ℚ) (f t : String)
    (hf : data.fromAirport = some f) (hfd : f ∈ domestic_airports)
    (ht : data.toAirport = some t) (htd : t ∈ domestic_airports)
    (hraw : 80 < raw) :
    predict_single now data raw =
      round2 (min (min raw (max
        (40 + (extract_features now data).distance * 0.005 +
          (extract_features now data).duration_minutes * 0.1 +
          (if (extract_features now data).is_peak_season ≠ 0 then 20 else 0) +
          (if (extract_features now data).is_weekend ≠ 0 then 10 else 0) +
          (if (extract_features now data).days_until_departure < 7 then
            ((7 - (extract_features now data).days_until_departure : ℤ) : ℚ) * 2
          else 0)) 35)) 85) := by
  have hd : is_domestic data := is_domestic_of_mem hf hfd ht htd
  unfold predict_single predict_price
  rw [if_pos ⟨hd, hraw⟩, ← adjusted_price_eq]
  congr 1
  apply max_eq_left
  have h35 : (35 : ℚ) ≤
      min (min raw (max (adjusted_price (extract_features now data)) 35)) 85 :=
    le_min (le_min (by linarith) (le_max_right _ _)) (by norm_num)
  linarith

theorem domestic_override_formula_witness :
    ("IST" ∈ domestic_airports ∧ "SAW" ∈ domestic_airports ∧
      (80 : ℚ) < 100) ∧
    predict_single ⟨⟨2024, 7, 15⟩, 0⟩
      ⟨some "IST", some "SAW", some "2024-07-15", some 60⟩ 100 =
      round2 (min (min 100 (max
        (40 + (extract_features ⟨⟨2024, 7, 15⟩, 0⟩
            ⟨some "IST", some "SAW", some "2024-07-15", some 60⟩).distance *
            0.005 +
          (extract_features ⟨⟨2024, 7, 15⟩, 0⟩
            ⟨some "IST", some "SAW", some "2024-07-15",
              some 60⟩).duration_minutes * 0.1 +
          (if (extract_features ⟨⟨2024, 7, 15⟩, 0⟩
              ⟨some "IST", some "SAW", some "2024-07-15",
                some 60⟩).is_peak_season ≠ 0 then 20 else 0) +
          (if (extract_features ⟨⟨2024, 7, 15⟩, 0⟩
              ⟨some "IST", some "SAW", some "2024-07-15",
                some 60⟩).is_weekend ≠ 0 then 10 else 0) +
          (if (extract_features ⟨⟨2024, 7, 15⟩, 0⟩
              ⟨some "IST", some "SAW", some "2024-07-15",
                some 60⟩).days_until_departure < 7 then
            ((7 - (extract_features ⟨⟨2024, 7, 15⟩, 0⟩
              ⟨some "IST", some "SAW", some "2024-07-15",
                some 60⟩).days_until_departure : ℤ) : ℚ) * 2
          else 0)) 35)) 85) :=
  ⟨⟨by decide, by decide, by norm_num⟩,
    domestic_override_formula ⟨⟨2024, 7, 15⟩, 0⟩
      ⟨some "IST", some "SAW", some "2024-07-15", some 60⟩ 100 "IST" "SAW"
      rfl (by decide) rfl (by decide) (by norm_num)⟩

/-- C4: for every single-prediction request whose airport fields are
both present and in the fixed 10-code domestic set, the returned price
lies in [30, 85], whatever the raw model output. -/
theorem domestic_price_bounds (now : Now) (data : PredictRequest)
    (raw : ℚ) (f t : String)
    (hf : data.fromAirport = some f) (hfd : f ∈ domestic_airports)
    (ht : data.toAirport = some t) (htd : t ∈ domestic_airports) :
    30 ≤ predict_single now data raw ∧ predict_single now data raw ≤ 85 := by
  have hd : is_domestic data := is_domestic_of_mem hf hfd ht htd
  unfold predict_single predict_price
  by_cases hraw : 80 < raw
  · rw [if_pos ⟨hd, hraw⟩]
    set X := min (min raw (max (adjusted_price (extract_features now data)) 35)) 85
      with hX
    have h35 : (35 : ℚ) ≤ X :=
      le_min (le_min (by linarith) (le_max_right _ _)) (by norm_num)
    have h85 : X ≤ 85 := min_le_right _ _
    rw [max_eq_left (by linarith : (30 : ℚ) ≤ X)]
    constructor
    · have h30 := le_round2 (n := 30) (q := X) (by push_cast; linarith)
      exact_mod_cast h30
    · have hub := round2_le (m := 85) (q := X) (by push_cast; linarith)
      exact_mod_cast hub
  · rw [if_neg (fun hc => hraw hc.2)]
    constructor
    · have h30 := le_round2 (n := 30) (q := max raw 30)
        (by push_cast; exact le_max_right _ _)
      exact_mod_cast h30
    · have hle : max raw 30 ≤ (85 : ℚ) :=
        max_le (by linarith [not_lt.mp hraw]) (by norm_num)
      have hub := round2_le (m := 85) (q := max raw 30) (by push_cast; linarith)
      exact_mod_cast hub

theorem domestic_price_bounds_witness :
    ("IST" ∈ domestic_airports ∧ "SAW" ∈ domestic_airports) ∧
    30 ≤ predict_single ⟨⟨2024, 7, 15⟩, 0⟩
      ⟨some "IST", some "SAW", some "2024-07-15", some 60⟩ 500 ∧
    predict_single ⟨⟨2024, 7, 15⟩, 0⟩
      ⟨some "IST", some "SAW", some "2024-07-15", some 60⟩ 500 ≤ 85 :=
  ⟨⟨by decide, by decide⟩,
    domestic_price_bounds ⟨⟨2024, 7, 15⟩, 0⟩
      ⟨some "IST", some "SAW", some "2024-07-15", some 60⟩ 500 "IST" "SAW"
      rfl (by decide) rfl (by decide)⟩

/-- C5: the batch response has exactly one entry per input flight, in
input order; each entry echoes `fromAirport`, `toAirport` and
`departureDate` verbatim from the corresponding input (via
`flight.get`, so an absent field is echoed as null), and its price is
the raw model output floored at 30 and rounded to two decimals — the
domestic override plays no part in the batch path. -/
theorem batch_echo_order_no_override (now : Now) (rawModel : Features → ℚ)
    (flights : List PredictRequest) :
    (predict_batch now rawModel flights).length = flights.length ∧
    ∀ i : ℕ, (predict_batch now rawModel flights)[i]? =
      (flights[i]?).map (fun flight =>
        { fromAirport := flight.fromAirport
          toAirport := flight.toAirport
          departureDate := flight.departureDate
          predictedPrice :=
            round2 (max (rawModel (extract_features now flight)) 30) }) := by
  refine ⟨by simp [predict_batch], ?_⟩
  intro i
  simp [predict_batch]

/-- C8: distance lookup is symmetric for every pair of airport-code
strings, and total: any pair found neither as given nor reversed gets
the 500 km default. -/
theorem get_distance_symm_total :
    (∀ a b : String, get_distance a b = get_distance b a) ∧
    (∀ a b : String, lookupDist (a, b) = none → lookupDist (b, a) = none →
      get_distance a b = 500) := by
  constructor
  · intro a b
    unfold get_distance
    cases h1 : lookupDist (a, b) with
    | none =>
      cases h2 : lookupDist (b, a) with
      | none => rfl
      | some d2 => rfl
    | some d1 =>
      cases h2 : lookupDist (b, a) with
      | none => rfl
      | some d2 =>
        exact absurd (lookupDist_some_mem h2)
          (reverse_not_mem_keys (a, b) (lookupDist_some_mem h1))
  · intro a b h1 h2
    unfold get_distance
    rw [h1, h2]

theorem get_distance_symm_total_witness :
    (lookupDist ("AAA", "BBB") = none ∧ lookupDist ("BBB", "AAA") = none) ∧
    get_distance "AAA" "BBB" = get_distance "BBB" "AAA" ∧
    get_distance "AAA" "BBB" = 500 :=
  ⟨⟨by decide, by decide⟩, get_distance_symm_total.1 "AAA" "BBB",
    get_distance_symm_total.2 "AAA" "BBB" (by decide) (by decide)⟩

/-- C9: the 9 feature names appear in the same fixed order in the
training-data construction, the prediction feature vector and the
feature-importance report: duration_minutes, month, day_of_week,
day_of_month, days_until_departure, is_weekend, is_peak_season,
distance, is_international. -/
theorem feature_names_fixed :
    feature_names_extract = feature_names_train ∧
    feature_names_train = feature_names_info ∧
    feature_names_extract =
      ["duration_minutes", "month", "day_of_week", "day_of_month",
       "days_until_departure", "is_weekend", "is_peak_season",
       "distance", "is_international"] :=
  ⟨rfl, rfl, rfl⟩

/-- C10: the extraction-level domestic test (defaults "IST"/"SAW", no
uppercasing) and the override-level domestic test (defaults "", with
uppercasing) disagree: a request omitting both airports is domestic for
extraction but fails the override test, and a request with lowercase
domestic codes is international for extraction yet passes the override
test. -/
theorem domestic_tests_disagree (now : Now) :
    (∃ data : PredictRequest,
      (extract_features now data).is_international = 0 ∧
        ¬ is_domestic data) ∧
    (∃ data : PredictRequest,
      (extract_features now data).is_international = 1 ∧
        is_domestic data) :=
  ⟨⟨⟨none, none, none, none⟩, rfl, by decide⟩,
    ⟨⟨some "ist", some "saw", none, none⟩, rfl, by decide⟩⟩

end MLService
